/-
Verification of the PSUR report-generation extraction pipelines
(section5_2.py, section5_3.py, section6_3.py and run_file.py of the
repository), as a shallow embedding in Lean.

Modelling conventions:
- machine floats are modelled as exact rationals (ℚ);
- pandas / numpy missing values (NaN) are modelled as `Option`;
- Python code that can raise is modelled as an `Except`-valued function;
- external library callables that the repository merely invokes
  (the `striprtf` converter, the docx paragraph reader, the stdlib text
  codecs) are passed in as explicit function parameters.
-/
import Mathlib

namespace PSURSpec

/-! ### Python string primitives used by the extractors -/

/-- Python `str.strip` (whitespace at both ends), at the character-list level. -/
def trimChars (l : List Char) : List Char :=
  ((l.dropWhile Char.isWhitespace).reverse.dropWhile Char.isWhitespace).reverse

/-- Python `str.strip`. -/
def pstrip (s : String) : String := String.mk (trimChars s.data)

/-- Python `str.lower` / `str.casefold` (the data in play is ASCII, where the
two agree). -/
def plower (s : String) : String := String.mk (s.data.map Char.toLower)

/-- Embedding of `str(val).strip().casefold()`, the country-cell normalisation of
`prepare_exposure_tables` (section5_3.py lines 161–167). -/
def normCountry (s : String) : String := plower (pstrip s)

/-- Decimal digit characters to a natural number. -/
def digitsToNat (l : List Char) : ℕ := l.foldl (fun n c => n * 10 + (c.toNat - 48)) 0

/-- Python `int(str)`: optional sign and a nonempty run of digits, surrounding
whitespace stripped; anything else raises `ValueError` (modelled as `none`). -/
def pyInt (s : String) : Option ℤ :=
  match (pstrip s).data with
  | '+' :: rest =>
    if !rest.isEmpty && rest.all Char.isDigit then some (digitsToNat rest) else none
  | '-' :: rest =>
    if !rest.isEmpty && rest.all Char.isDigit then some (-(digitsToNat rest : ℤ)) else none
  | l =>
    if !l.isEmpty && l.all Char.isDigit then some (digitsToNat l) else none

/-- Unsigned decimal numeral (`123`, `123.45`, `.45`, `123.`) to a rational. -/
def parseDecUnsigned (l : List Char) : Option ℚ :=
  match l.dropWhile Char.isDigit with
  | [] => if (l.takeWhile Char.isDigit).isEmpty then none
          else some ((digitsToNat (l.takeWhile Char.isDigit) : ℤ) : ℚ)
  | '.' :: frac =>
    if frac.all Char.isDigit && (!(l.takeWhile Char.isDigit).isEmpty || !frac.isEmpty) then
      some ((digitsToNat (l.takeWhile Char.isDigit) : ℚ) +
        (digitsToNat frac : ℚ) / ((10 : ℚ) ^ frac.length))
    else none
  | _ => none

/-- Embedding of `pd.to_numeric(cell, errors="coerce")` on a decimal string cell: a signed
decimal numeral parses, everything else coerces to missing. -/
def parseDecQ (s : String) : Option ℚ :=
  match (pstrip s).data with
  | '+' :: rest => parseDecUnsigned rest
  | '-' :: rest => (parseDecUnsigned rest).map Neg.neg
  | l => parseDecUnsigned l

/-- numpy / pandas `round` to 0 decimals and Python `round`: round half to even. -/
def roundHalfEven (q : ℚ) : ℤ :=
  if q - (⌊q⌋ : ℚ) < 1 / 2 then ⌊q⌋
  else if (1 : ℚ) / 2 < q - (⌊q⌋ : ℚ) then ⌊q⌋ + 1
  else if ⌊q⌋ % 2 = 0 then ⌊q⌋ else ⌊q⌋ + 1

/-- Float-to-int conversion (`astype(int)`, `int(...)`): truncation toward zero. -/
def truncQ (q : ℚ) : ℤ := if 0 ≤ q then ⌊q⌋ else ⌈q⌉

/-- Embedding of `pd.to_numeric(x, errors="coerce").fillna(0).astype(int)` on one cell, the
coercion applied to the "Total" column in `_rtf_soc_summary` (section6_3.py
line 137). -/
def totalInt (s : String) : ℤ := truncQ ((parseDecQ s).getD 0)

/-! ### Exposure calculator (section5_3.py, `prepare_exposure_tables`)

A `SalesRow` models one data row of the sales table after the column-coercion
steps of lines 108–133: `country` is the raw "Country" cell, `units` the
coerced "Number of tablets / Capsules/Injections" value and `strength` the
coerced "Strength in mg" value (`none` = unparseable, hence NaN).  `rest`
carries the remaining raw cells of the row (Product, pack fields, the raw
numeric texts, ...) so that row equality coincides with pandas full-row
equality in `drop_duplicates`. -/

structure SalesRow where
  country : String
  units : Option ℚ
  strength : Option ℚ
  rest : List String
deriving DecidableEq, Repr

/-- Lines 144–147: `Sales Figure (mg) ... = Units × Strength-mg` when both are
present, else missing (NaN multiplication propagates). -/
def sales_figure (units strength : Option ℚ) : Option ℚ :=
  match units, strength with
  | some u, some s => some (u * s)
  | _, _ => none

/-- Lines 141–152: `Patients Exposure (PTY) for period` for one row.
`normalized_ddd` is `none` when the DDD is missing; the Python truthiness test
`if normalized_ddd` additionally sends a zero DDD to the NaN branch.  The
column is then divided by `DDD × 365` and rounded to 0 decimals (NaN stays
NaN). -/
def patient_exposure (ddd units strength : Option ℚ) : Option ℤ :=
  match ddd with
  | some d =>
    if d = 0 then none
    else (sales_figure units strength).map (fun sf => roundHalfEven (sf / (d * 365)))
  | none => none

/-- Embedding of `_create_clean_total_row` (lines 56–61): the integer placed in the
synthetic "Total" row of a partition, `int(df[col].sum(numeric_only=True))` —
a skip-missing sum of the rounded exposure column (missing contributes 0). -/
def clean_total_row_value (ddd : Option ℚ) (table : List SalesRow) : ℤ :=
  (table.map (fun r => (patient_exposure ddd r.units r.strength).getD 0)).sum

/-- Lines 159–161: the target-country match set — the aliases plus the country
name, falsy entries dropped, each stripped and casefolded. -/
def target_countries (country_name : String) (country_aliases : List String) : List String :=
  ((country_aliases ++ [country_name]).filter (fun v => v != "")).map normCountry

/-- Lines 163–167: is a row's Country cell in the target partition?  A caller
country identifier normalising to `"eu&uk"` switches to the fixed code set
`{"uk", "se", "dk"}`, ignoring the alias list. -/
def rowInTarget (country_name : String) (country_aliases : List String) (r : SalesRow) : Bool :=
  if normCountry country_name = "eu&uk" then
    decide (normCountry r.country ∈ (["uk", "se", "dk"] : List String))
  else
    decide (normCountry r.country ∈ target_countries country_name country_aliases)

/-- The result record of `prepare_exposure_tables` (section5_3.py lines 15–21
and 196–203).  The tables hold the partition's data rows; the synthetic
"Total" row appended to each partition is represented by the corresponding
`*_total` field. -/
structure ExposureComputationResult where
  country_table : List SalesRow
  non_country_table : List SalesRow
  country_total : ℤ
  non_country_total : ℤ
  combined_total : ℤ
  ddd_value : Option ℚ
deriving DecidableEq, Repr

/-- Embedding of `prepare_exposure_tables` (lines 82–203), restricted to the columns the
claims are about: duplicate rows are dropped (line 106), rows are partitioned
by `rowInTarget` (lines 163–170), each partition gets its clean total
(lines 172–180), and `combined_total` is the sum of the two partition totals
(line 181), not an independent recomputation. -/
def prepare_exposure_tables (rows : List SalesRow) (ddd_value : Option ℚ)
    (country_name : String) (country_aliases : List String) : ExposureComputationResult :=
  { country_table := rows.dedup.filter (rowInTarget country_name country_aliases)
  , non_country_table := rows.dedup.filter (fun r => !(rowInTarget country_name country_aliases r))
  , country_total :=
      clean_total_row_value ddd_value (rows.dedup.filter (rowInTarget country_name country_aliases))
  , non_country_total :=
      clean_total_row_value ddd_value
        (rows.dedup.filter (fun r => !(rowInTarget country_name country_aliases r)))
  , combined_total :=
      clean_total_row_value ddd_value (rows.dedup.filter (rowInTarget country_name country_aliases)) +
      clean_total_row_value ddd_value
        (rows.dedup.filter (fun r => !(rowInTarget country_name country_aliases r)))
  , ddd_value := ddd_value }

/-! ### Section 5.3 rendering decision (run_file.py lines 107–130) -/

/-- Embedding of `Section5_3Data` (section5_3.py lines 235–241). -/
structure Section5_3Data where
  medicine : String
  place : String
  date : String
  country_name : String
  results : Option ExposureComputationResult

/-- The two ways run_file.py renders section 5.3. -/
inductive Section5_3Render
  | fallback_doc (medicine : String)
  | exposure_document (res : ExposureComputationResult)
      (medicine place date country_name : String)
deriving DecidableEq

/-- run_file.py lines 116–130: `generate_fallback_doc` when the results are
absent or the combined total is zero, else the full exposure document. -/
def render_section5_3 (d : Section5_3Data) : Section5_3Render :=
  match d.results with
  | none => Section5_3Render.fallback_doc d.medicine
  | some r =>
    if r.combined_total = 0 then Section5_3Render.fallback_doc d.medicine
    else Section5_3Render.exposure_document r d.medicine d.place d.date d.country_name

/-! ### Concrete rows used by witnesses -/

/-- A one-row dataset whose single exposure value rounds to zero. -/
def rowsAllZero : List SalesRow := [⟨"UK", some 0, some 1, []⟩]

/-- Section-5.3 data whose computed combined total is zero. -/
def dataZeroTotal : Section5_3Data :=
  ⟨"Esomeprazole", "EU & UK", "2024", "eu&uk",
    some (prepare_exposure_tables rowsAllZero (some 1) "eu&uk" [])⟩

def rowUK : SalesRow := ⟨"UK", none, none, []⟩

def rowSE : SalesRow := ⟨"SE", none, none, []⟩

def rowDK : SalesRow := ⟨"DK", none, none, []⟩

def rowFR : SalesRow := ⟨"FR", none, none, []⟩

/-- The claim's scenario dataset: Country values UK, SE, DK, FR. -/
def rowsEUUK : List SalesRow := [rowUK, rowSE, rowDK, rowFR]

/-! ### Table locators: duplicated-header collapse

Both locators post-process the extracted list-of-rows identically:
`extract_specific_table` (section5_2.py lines 58–61) and
`extract_table_after_text` (section5_3.py lines 50–53) run
`if len(t) > 1 and t[0] == t[1]: t.pop(1)`. -/

/-- The shared duplicated-header-row collapse of both table locators. -/
def collapse_duplicate_header (t : List (List String)) : List (List String) :=
  match t with
  | r0 :: r1 :: rest => if r0 = r1 then r0 :: rest else t
  | _ => t

/-! ### Multi-format text extractor (section6_3.py lines 13–35)

The file system is a function from paths to `none` (missing) or the file's
bytes.  The external converters (`striprtf.rtf_to_text`, the docx paragraph
reader) and the fallible stdlib codecs (utf-8, cp1252) are passed in as
function parameters; the latin1 codec never fails and is modelled exactly. -/

/-- The two hard failures of `extract_text_from_document`:
`FileNotFoundError` and the unsupported-format `ValueError`. -/
inductive DocumentError
  | file_not_found (path : String)
  | unsupported_format (path : String)
deriving DecidableEq, Repr

/-- latin1 ("ISO-8859-1") decoding: every byte maps to the code point of the
same value, so decoding never fails. -/
def latin1_decode (bytes : List ℕ) : String := String.mk (bytes.map Char.ofNat)

/-- Embedding of `read_rtf_file_safe` (lines 13–23): try utf-8, then cp1252, then latin1 in
order, moving on at a decode failure.  The in-loop latin1 attempt is total, so
the unconditional latin1 fallback after the loop (line 22) is unreachable and
coincides with it. -/
def read_rtf_file_safe (utf8_decode cp1252_decode : List ℕ → Option String)
    (bytes : List ℕ) : String :=
  match utf8_decode bytes with
  | some text => text
  | none =>
    match cp1252_decode bytes with
    | some text => text
    | none => latin1_decode bytes

/-- Index of the last occurrence of a character satisfying `p` (Python
`str.rfind` over a character class). -/
def rfindIdxP (p : Char → Bool) (l : List Char) : Option ℕ :=
  (l.reverse.findIdx? p).map (fun j => l.length - 1 - j)

/-- Embedding of `os.path.splitext(path)[1]`: the extension starts at the last dot, and
only counts when it lies after the last path separator and some non-dot
character precedes it inside the base name (so dotfiles have no extension). -/
def splitext_ext (p : String) : String :=
  let l := p.data
  let sepIdx : ℤ := match rfindIdxP (fun c => c == '/' || c == '\\') l with
    | some n => (n : ℤ)
    | none => -1
  let dotIdx : ℤ := match rfindIdxP (fun c => c == '.') l with
    | some n => (n : ℤ)
    | none => -1
  if sepIdx < dotIdx then
    if ((l.drop (sepIdx + 1).toNat).take (dotIdx - sepIdx - 1).toNat).any (fun c => c != '.') then
      String.mk (l.drop dotIdx.toNat)
    else ""
  else ""

/-- Embedding of `extract_text_from_document` (lines 26–35): missing path raises
`FileNotFoundError`; otherwise dispatch on the lower-cased extension —
`.rtf` decodes and converts, `.docx` joins the paragraph texts, and any other
extension raises the unsupported-format `ValueError`. -/
def extract_text_from_document (rtf_to_text : String → String)
    (docx_paragraphs_text : List ℕ → String)
    (utf8_decode cp1252_decode : List ℕ → Option String)
    (fs : String → Option (List ℕ)) (file_path : String) : Except DocumentError String :=
  match fs file_path with
  | none => Except.error (DocumentError.file_not_found file_path)
  | some bytes =>
    if plower (splitext_ext file_path) = ".rtf" then
      Except.ok (rtf_to_text (read_rtf_file_safe utf8_decode cp1252_decode bytes))
    else if plower (splitext_ext file_path) = ".docx" then
      Except.ok (docx_paragraphs_text bytes)
    else Except.error (DocumentError.unsupported_format file_path)

/-! ### Pack-size normalisation (section5_3.py lines 120–126)

`df["Pack size"].astype(str).str.split(":", n=1).str[-1].str.strip()` keeps
everything after the **first** colon (or the whole cell when no colon is
present), then `.str.extract(r"(\d+)\s*[xX]\s*(\d+)")` finds the leftmost
`A x B` pair, and the two numbers (each defaulting to 1 when the pattern is
absent) are multiplied. -/

/-- Embedding of `cell.split(":", 1)[-1]`: everything after the first colon, or the whole
string when it has no colon. -/
def splitFirstColon (s : String) : String :=
  if s.data.contains ':' then String.mk ((s.data.dropWhile (fun c => c != ':')).drop 1) else s

/-- Everything after the last colon (the spec's reading), or the whole string
when it has no colon. -/
def afterLastColon (s : String) : String :=
  if s.data.contains ':' then
    String.mk ((s.data.reverse.takeWhile (fun c => c != ':')).reverse)
  else s

/-- Try to match the regex `(\d+)\s*[xX]\s*(\d+)` anchored at the head of the
character list, returning the two numbers. -/
def matchAxBHere (l : List Char) : Option (ℕ × ℕ) :=
  if (l.takeWhile Char.isDigit).isEmpty then none
  else
    match (l.dropWhile Char.isDigit).dropWhile Char.isWhitespace with
    | c :: r3 =>
      if c == 'x' || c == 'X' then
        if ((r3.dropWhile Char.isWhitespace).takeWhile Char.isDigit).isEmpty then none
        else some (digitsToNat (l.takeWhile Char.isDigit),
          digitsToNat ((r3.dropWhile Char.isWhitespace).takeWhile Char.isDigit))
      else none
    | [] => none

/-- Embedding of `re.search` for the pack-size pattern: leftmost match wins. -/
def searchAxB : List Char → Option (ℕ × ℕ)
  | [] => none
  | c :: rest =>
    match matchAxBHere (c :: rest) with
    | some r => some r
    | none => searchAxB rest

/-- The "Pack size" normalisation of one cell (lines 120–126): text before the
first colon is split off, the leftmost `A x B` pair of the remainder is
extracted and multiplied, a missing match defaulting each factor to 1. -/
def pack_size_normalize (s : String) : ℕ :=
  match searchAxB (pstrip (splitFirstColon s)).data with
  | some (a, b) => a * b
  | none => 1

/-- Spec-words variant for comparison (claim C5): identical except that the
text before the **last** colon is split off. -/
def pack_size_spec_last_colon (s : String) : ℕ :=
  match searchAxB (pstrip (afterLastColon s)).data with
  | some (a, b) => a * b
  | none => 1

/-! ### SOC narrative summarizer (section6_3.py lines 38–191)

The functions below embed `extract_table_with_multilevel_header` and
`_rtf_soc_summary` over the line list of the already-extracted plain text
(`plain_text.splitlines()`); the file reading itself is the text extractor
above.  Python code that can raise `IndexError`/`ValueError` is modelled with
`Except String`. -/

/-- Substring test on character lists (Python `in`). -/
def substrList (needle : List Char) : List Char → Bool
  | [] => needle.isEmpty
  | c :: rest => needle.isPrefixOf (c :: rest) || substrList needle rest

/-- Case-insensitive substring test: `needle.lower() in hay.lower()`. -/
def containsCI (hay needle : String) : Bool :=
  substrList (plower needle).data (plower hay).data

/-- Case-sensitive substring test: `needle in hay`. -/
def containsSub (hay needle : String) : Bool := substrList needle.data hay.data

/-- Python `str.split(sep)` for a one-character separator, structurally on
character lists. -/
def splitOnChar (c : Char) : List Char → List (List Char)
  | [] => [[]]
  | x :: xs =>
    if x = c then [] :: splitOnChar c xs
    else
      match splitOnChar c xs with
      | h :: t => (x :: h) :: t
      | [] => [[x]]

/-- Embedding of `re.split(r"\s*\|\s*", line)` (with the caller stripping the
line or the pieces): split on pipes and trim every piece. -/
def pipeSplit (s : String) : List String :=
  (splitOnChar '|' s.data).map (fun l => String.mk (trimChars l))

/-- Last non-blank line of the text (section6_3.py line 43). -/
def lastNonBlankLine (lines : List String) : String :=
  ((lines.reverse).find? (fun l => !(pstrip l).data.isEmpty)).getD ""

/-- Line 44: the purely-numeric pipe-separated tokens of a line. -/
def digitTokens (line : String) : List String :=
  ((splitOnChar '|' line.data).map (fun l => String.mk (trimChars l))).filter
    (fun p => !p.data.isEmpty && p.data.all Char.isDigit)

/-- Lines 43–45: the "labeled" scalar count. -/
def labeledCount (lines : List String) : ℕ :=
  match digitTokens (lastNonBlankLine lines) with
  | t :: _ => digitsToNat t.data
  | [] => 0

/-- Lines 43–46: the "unlabeled" scalar count. -/
def unlabeledCount (lines : List String) : ℕ :=
  match digitTokens (lastNonBlankLine lines) with
  | _ :: t :: _ => digitsToNat t.data
  | _ => 0

/-- Lines 48–54: the marker loop.  A start-marker line **overwrites** the
running start index; an end-marker line (that is not itself a start-marker
line) closes the pair once some start has been seen. -/
def findMarkersAux (s e : String) : List String → ℕ → Option ℕ → Option (ℕ × ℕ)
  | [], _, _ => none
  | l :: rest, i, st =>
    if containsCI l s then findMarkersAux s e rest (i + 1) (some i)
    else if containsCI l e then
      match st with
      | some si => some (si, i)
      | none => findMarkersAux s e rest (i + 1) none
    else findMarkersAux s e rest (i + 1) st

/-- The `(start_idx, end_idx)` pair of the marker loop, if any. -/
def findMarkers (s e : String) (lines : List String) : Option (ℕ × ℕ) :=
  findMarkersAux s e lines 0 none

/-- Spec-words variant for comparison (claim C6): the **first** line containing
the start marker and the first end-marker line strictly after it. -/
def first_marker_pair_spec (s e : String) (lines : List String) : Option (ℕ × ℕ) :=
  match lines.findIdx? (fun l => containsCI l s) with
  | none => none
  | some i =>
    match (List.range lines.length).find?
        (fun j => decide (i < j) && containsCI (lines.getD j "") e) with
    | none => none
    | some j => some (i, j)

/-- Lines 61–69: locate the primary header row (both "System Organ Class" and
"Preferred Term", case-sensitive substrings, later hits overwriting earlier
ones) and then the first "No"/"Yes"/"Total" sub-header row, which breaks the
scan even when no primary header was seen yet. -/
def findHeaderAux : List String → ℕ → Option (List String) →
    Option (List String × List String × ℕ)
  | [], _, _ => none
  | l :: rest, i, hdr =>
    if containsSub l "System Organ Class" && containsSub l "Preferred Term" then
      findHeaderAux rest (i + 1) (some (pipeSplit (pstrip l)))
    else if containsSub l "No" && containsSub l "Yes" && containsSub l "Total" then
      match hdr with
      | some h => some (h, pipeSplit (pstrip l), i + 1)
      | none => none
    else findHeaderAux rest (i + 1) hdr

/-- One parsed data row (positional: the five columns renamed at line 136 to
Blanket diseases / Sub-diseases / No / Yes / Total). -/
structure SOCRow where
  blanket : String
  sub : String
  no : String
  yes : String
  total : String
deriving DecidableEq, Repr

def defaultSOCRow : SOCRow := ⟨"", "", "", "", ""⟩

/-- Lines 83–91: a 5-token line starts a new SOC group (first token carried
forward), a 4-token line inherits the current SOC name, anything else is
dropped. -/
def parseDataRows : List String → String → List SOCRow
  | [], _ => []
  | l :: rest, current =>
    match (pipeSplit l).filter (fun p => !p.data.isEmpty) with
    | [p0, p1, p2, p3, p4] => ⟨p0, p1, p2, p3, p4⟩ :: parseDataRows rest p0
    | [p0, p1, p2, p3] => ⟨current, p0, p1, p2, p3⟩ :: parseDataRows rest current
    | _ => parseDataRows rest current

/-- Embedding of `extract_table_with_multilevel_header` (lines 38–97) over the
text's lines: `Except.ok (none, labeled, unlabeled)` is the empty table with
only the two scalar counts, and building the two-level columns raises
`IndexError` when the header has fewer than 3 or the sub-header fewer than 4
pipe-separated fields. -/
def extract_table_with_multilevel_header (start_marker end_marker : String)
    (lines : List String) : Except String (Option (List SOCRow) × ℕ × ℕ) :=
  match findMarkers start_marker end_marker lines with
  | none => Except.ok (none, labeledCount lines, unlabeledCount lines)
  | some (startIdx, endIdx) =>
    let tableLines := (((lines.drop startIdx).take (endIdx - startIdx)).map pstrip).filter
      (fun l => !l.data.isEmpty)
    match findHeaderAux tableLines 0 none with
    | none => Except.ok (none, labeledCount lines, unlabeledCount lines)
    | some (headerRow, subheaderRow, dataStart) =>
      if headerRow.length < 3 || subheaderRow.length < 4 then
        Except.error "list index out of range"
      else
        match parseDataRows (tableLines.drop dataStart) "" with
        | [] => Except.ok (none, labeledCount lines, unlabeledCount lines)
        | rows => Except.ok (some rows, labeledCount lines, unlabeledCount lines)

deriving instance DecidableEq for Except

def socStartMarker : String := "For the cases in this report"

def socEndMarker : String := "Main Summary Tabulation: by System Organ Class (SOC)"

/-- Stable insertion keeping descending order of the coerced Total. -/
def insertByTotalDesc (r : SOCRow) : List SOCRow → List SOCRow
  | [] => [r]
  | x :: xs =>
    if totalInt x.total < totalInt r.total then r :: x :: xs
    else x :: insertByTotalDesc r xs

/-- Embedding of `sort_values(by="Total", ascending=False)`. -/
def sortByTotalDesc : List SOCRow → List SOCRow
  | [] => []
  | r :: rest => insertByTotalDesc r (sortByTotalDesc rest)

/-- Lines 130–133: the count-only sentence for an empty table. -/
def socCountOnly (label unlabel : ℕ) : String :=
  "A total of " ++ toString (label + unlabel) ++ " ADRs were found, with " ++
    toString label ++ " labeled and " ++ toString unlabel ++
    " unlabeled. No detailed event data could be parsed."

/-- Lines 142–146: the short sentence for a zero grand total. -/
def socShortZero (serious nonSerious : ℤ) (label unlabel : ℕ) : String :=
  toString serious ++ " serious ADRs and " ++ toString nonSerious ++
    " non-serious ADRs were reported. Out of " ++ toString (label + unlabel) ++
    " ADRs, " ++ toString label ++ " were labeled and " ++ toString unlabel ++
    " unlabeled as per current RSI."

/-- Lines 152–156: the insufficient-data sentence for fewer than 3 SubTotal
groups. -/
def socInsufficient (serious nonSerious : ℤ) : String :=
  toString serious ++ " serious ADRs and " ++ toString nonSerious ++
    " non-serious ADRs were reported. Insufficient data to generate detailed SOC summary."

/-- Lines 171–172: `round((n / max(total_ADR, 1)) * 100)`. -/
def pctOf (totalADR n : ℤ) : ℤ := roundHalfEven ((n : ℚ) / ((max totalADR 1 : ℤ) : ℚ) * 100)

/-- The top 3 SubTotal groups by descending Total (lines 148–151). -/
def socTop3 (kept : List SOCRow) : List SOCRow :=
  (sortByTotalDesc (kept.filter (fun r => r.sub == "SubTotal"))).take 3

/-- The top 4 sub-rows of one SOC group (lines 158–163). -/
def socSubTop (kept : List SOCRow) (blanket : String) : List SOCRow :=
  (sortByTotalDesc (kept.filter
    (fun r => r.blanket == blanket && !(r.sub == "SubTotal")))).take 4

/-- One `name (n=count)` phrase of the sub-disease breakdown. -/
def socSubPhrase (st : List SOCRow) (i : ℕ) : String :=
  (st.getD i defaultSOCRow).sub ++ " (n=" ++
    toString (totalInt (st.getD i defaultSOCRow).total) ++ ")"

/-- Lines 158–191: the four-paragraph ranked narrative; accessing the top-4
sub-rows raises `IndexError` when a top-3 group has fewer than 4 sub-rows. -/
def socRanked (kept : List SOCRow) (serious nonSerious totalADR : ℤ)
    (label unlabel : ℕ) : Except String String :=
  let b0 := (socTop3 kept).getD 0 defaultSOCRow
  let b1 := (socTop3 kept).getD 1 defaultSOCRow
  let b2 := (socTop3 kept).getD 2 defaultSOCRow
  let st0 := socSubTop kept b0.blanket
  let st1 := socSubTop kept b1.blanket
  let st2 := socSubTop kept b2.blanket
  if st0.length < 4 || st1.length < 4 || st2.length < 4 then
    Except.error "list index out of range"
  else
    Except.ok (
      " " ++ toString serious ++ " serious ADRs and " ++ toString nonSerious ++
        " non-serious ADRs. Out of " ++ toString (label + unlabel) ++ " ADRs, " ++
        toString label ++ " were labeled and " ++ toString unlabel ++
        " were unlabeled as per current RSI." ++ "\n\n" ++
      "Of these " ++ toString totalADR ++ " ADRs, most fell under SOC " ++ b0.blanket ++
        " (n=" ++ toString (totalInt b0.total) ++ " i.e. " ++
        toString (pctOf totalADR (totalInt b0.total)) ++ "% of total) including " ++
        socSubPhrase st0 0 ++ ", " ++ socSubPhrase st0 1 ++ ", " ++ socSubPhrase st0 2 ++
        ", " ++ socSubPhrase st0 3 ++ " etc." ++ "\n\n" ++
      "Second most common SOC was " ++ b1.blanket ++ " (n=" ++
        toString (totalInt b1.total) ++ ", i.e. " ++
        toString (pctOf totalADR (totalInt b1.total)) ++ "% of total) including " ++
        socSubPhrase st1 0 ++ ", " ++ socSubPhrase st1 1 ++ ", " ++ socSubPhrase st1 2 ++
        ", and " ++ socSubPhrase st1 3 ++ " etc." ++ "\n\n" ++
      "Third most common SOC was " ++ b2.blanket ++ " (n=" ++
        toString (totalInt b2.total) ++ ", i.e. " ++
        toString (pctOf totalADR (totalInt b2.total)) ++ "% of total) including " ++
        socSubPhrase st2 0 ++ ", " ++ socSubPhrase st2 1 ++ ", " ++ socSubPhrase st2 2 ++
        ", and " ++ socSubPhrase st2 3 ++ " etc.")

/-- Embedding of `_rtf_soc_summary` (lines 123–191) over the text's lines.
After the empty check, `df2.iloc[1:]` drops the first parsed row, `iloc[-1]`
on the remainder raises `IndexError` when it is empty, `int(...)` on the last
row's "No"/"Yes" cells raises `ValueError` when they are not integer
literals, then the zero-total and fewer-than-3-SubTotals fallbacks apply
before the ranked narrative. -/
def rtf_soc_summary (lines : List String) : Except String String :=
  match extract_table_with_multilevel_header socStartMarker socEndMarker lines with
  | Except.error msg => Except.error msg
  | Except.ok (none, label, unlabel) => Except.ok (socCountOnly label unlabel)
  | Except.ok (some rows, label, unlabel) =>
    match (rows.drop 1).getLast? with
    | none => Except.error "single positional indexer is out-of-bounds"
    | some lastRow =>
      match pyInt lastRow.no, pyInt lastRow.yes with
      | some nonSeriousADR, some seriousADR =>
        if totalInt lastRow.total = 0 then
          Except.ok (socShortZero seriousADR nonSeriousADR label unlabel)
        else if (socTop3 (rows.drop 1)).length < 3 then
          Except.ok (socInsufficient seriousADR nonSeriousADR)
        else
          socRanked (rows.drop 1) seriousADR nonSeriousADR (totalInt lastRow.total)
            label unlabel
      | _, _ => Except.error "invalid literal for int() with base 10"

/-- Failing input for C4: the header line has both header phrases but fewer
than 3 pipe-separated fields, so building the two-level columns raises
`IndexError`. -/
def linesMalformedHeader : List String :=
  ["For the cases in this report",
   "System Organ Class and Preferred Term",
   "| | No | Yes | Total",
   "Main Summary Tabulation: by System Organ Class (SOC)"]

/-- Counterexample input for C9: a well-formed table with exactly one data
row; dropping the first parsed row leaves nothing and `iloc[-1]` raises. -/
def linesSingleDataRow : List String :=
  ["For the cases in this report",
   "| System Organ Class | Preferred Term | x",
   "| | No | Yes | Total",
   "| A | B | 1 | 2 | 3",
   "Main Summary Tabulation: by System Organ Class (SOC)"]

/-- Witness input for the amended C9: three parsed rows, one SubTotal group,
nonzero grand total. -/
def linesFewSubTotals : List String :=
  ["For the cases in this report",
   "| System Organ Class | Preferred Term | Seriousness",
   "| | No | Yes | Total",
   "| Artifact | Artifact | 0 | 0 | 0",
   "| SOC A | SubTotal | 1 | 2 | 3",
   "| All | Grand | 1 | 2 | 3",
   "Main Summary Tabulation: by System Organ Class (SOC)",
   "| 4 | 5"]

/-- A concrete two-file file system for the C8 witness. -/
def fsWitness : String → Option (List ℕ) :=
  fun p => if p = "report.RTF" then some [104, 105]
    else if p = "notes.pdf" then some [1] else none

/-! ## Theorems -/

/-- C1:  For every input row in which both the unit count and the strength
are present numerics and the resolved DDD is present and nonzero, the
patient-exposure value equals `Units × Strength / (DDD × 365)` rounded to the
nearest integer (ties to even, as numpy's round-half-to-even does); when the
DDD is missing or zero, or either factor is missing, the patient-exposure
value is missing. -/
theorem exposure_value_formula (units strength ddd : Option ℚ) :
    (∀ u s d, units = some u → strength = some s → ddd = some d → d ≠ 0 →
      patient_exposure ddd units strength = some (roundHalfEven (u * s / (d * 365)))) ∧
    ((ddd = none ∨ ddd = some 0 ∨ units = none ∨ strength = none) →
      patient_exposure ddd units strength = none) := by
  constructor
  · intro u s d hu hs hd hdz
    subst hu; subst hs; subst hd
    simp [patient_exposure, sales_figure, hdz]
  · intro h
    rcases h with h | h | h | h
    · subst h; rfl
    · subst h; simp [patient_exposure]
    · subst h
      cases ddd with
      | none => rfl
      | some d =>
        cases strength <;>
          · by_cases hd : d = 0 <;> simp [patient_exposure, sales_figure, hd]
    · subst h
      cases ddd with
      | none => rfl
      | some d =>
        cases units <;>
          · by_cases hd : d = 0 <;> simp [patient_exposure, sales_figure, hd]

/-- Witness for C1 at concrete inputs: units 10, strength 20, DDD 2 gives the
rounded quotient, and a zero DDD gives a missing value. -/
theorem exposure_value_formula_witness :
    patient_exposure (some 2) (some 10) (some 20) = some (roundHalfEven (10 * 20 / (2 * 365))) ∧
    patient_exposure (some 0) (some 10) (some 20) = none := by
  constructor
  · exact (exposure_value_formula (some 10) (some 20) (some 2)).1 10 20 2 rfl rfl rfl
      (by norm_num)
  · exact (exposure_value_formula (some 10) (some 20) (some 0)).2 (Or.inr (Or.inl rfl))

/-- C3:  For every exposure computation result, `country_total +
non_country_total = combined_total` exactly, where each partition total is the
integer placed in that partition's synthetic "Total" row (the skip-missing sum
of its exposure column) and the combined total is computed as their sum. -/
theorem totals_sum_invariant (rows : List SalesRow) (ddd : Option ℚ)
    (country_name : String) (country_aliases : List String) :
    (prepare_exposure_tables rows ddd country_name country_aliases).country_total +
      (prepare_exposure_tables rows ddd country_name country_aliases).non_country_total =
      (prepare_exposure_tables rows ddd country_name country_aliases).combined_total ∧
    (prepare_exposure_tables rows ddd country_name country_aliases).country_total =
      clean_total_row_value ddd
        ((prepare_exposure_tables rows ddd country_name country_aliases).country_table) ∧
    (prepare_exposure_tables rows ddd country_name country_aliases).non_country_total =
      clean_total_row_value ddd
        ((prepare_exposure_tables rows ddd country_name country_aliases).non_country_table) :=
  ⟨rfl, rfl, rfl⟩

/-- C2:  When the caller's country identifier strips-and-casefolds to
`"eu&uk"`, the target partition contains exactly the rows whose Country cell
strips-and-casefolds to one of `"uk"`, `"se"`, `"dk"` (and the rest-of-world
partition the others), regardless of any caller-supplied aliases; for any
other country identifier, partitioning is by case/whitespace-insensitive
match against the country name and its aliases. -/
theorem eu_uk_partition_membership (rows : List SalesRow) (ddd : Option ℚ)
    (country_name : String) (country_aliases : List String) (r : SalesRow) :
    (normCountry country_name = "eu&uk" →
      ((r ∈ (prepare_exposure_tables rows ddd country_name country_aliases).country_table ↔
          r ∈ rows ∧ normCountry r.country ∈ (["uk", "se", "dk"] : List String)) ∧
        (r ∈ (prepare_exposure_tables rows ddd country_name country_aliases).non_country_table ↔
          r ∈ rows ∧ normCountry r.country ∉ (["uk", "se", "dk"] : List String)))) ∧
    (normCountry country_name ≠ "eu&uk" →
      ((r ∈ (prepare_exposure_tables rows ddd country_name country_aliases).country_table ↔
          r ∈ rows ∧ normCountry r.country ∈ target_countries country_name country_aliases) ∧
        (r ∈ (prepare_exposure_tables rows ddd country_name country_aliases).non_country_table ↔
          r ∈ rows ∧
            normCountry r.country ∉ target_countries country_name country_aliases))) := by
  constructor <;> intro h <;> constructor <;>
    simp [prepare_exposure_tables, List.mem_filter, List.mem_dedup, rowInTarget, h]

/-- Witness for C2: in the scenario with Country values UK, SE, DK, FR and the
identifier `"eu&uk"`, UK lands in the target partition and FR in rest-of-world
even though "france" is supplied as an alias. -/
theorem eu_uk_partition_membership_witness :
    rowUK ∈ (prepare_exposure_tables rowsEUUK (some 1) "eu&uk" ["france"]).country_table ∧
    rowFR ∈ (prepare_exposure_tables rowsEUUK (some 1) "eu&uk" ["france"]).non_country_table := by
  constructor
  · exact (((eu_uk_partition_membership rowsEUUK (some 1) "eu&uk" ["france"] rowUK).1
      (by decide)).1).mpr ⟨by decide, by decide⟩
  · exact (((eu_uk_partition_membership rowsEUUK (some 1) "eu&uk" ["france"] rowFR).1
      (by decide)).2).mpr ⟨by decide, by decide⟩

/-- C10:  The exposure section renders the fallback document not only when
no results were computed but whenever the computed `combined_total` is 0; and
a located sales table whose exposure values all round to zero yields
`combined_total = 0`, hence renders identically to a missing table (the same
`fallback_doc` with the same medicine, no numeric table emitted). -/
theorem zero_total_fallback_decision (d : Section5_3Data) (rows : List SalesRow)
    (ddd : Option ℚ) (country_name : String) (country_aliases : List String) :
    (d.results = none → render_section5_3 d = Section5_3Render.fallback_doc d.medicine) ∧
    (∀ res, d.results = some res → res.combined_total = 0 →
      render_section5_3 d = Section5_3Render.fallback_doc d.medicine) ∧
    ((∀ r ∈ rows, (patient_exposure ddd r.units r.strength).getD 0 = 0) →
      (prepare_exposure_tables rows ddd country_name country_aliases).combined_total = 0) := by
  refine ⟨?_, ?_, ?_⟩
  · intro h
    simp [render_section5_3, h]
  · intro res h hz
    simp [render_section5_3, h, hz]
  · intro h
    have hsub : ∀ p : SalesRow → Bool,
        clean_total_row_value ddd (rows.dedup.filter p) = 0 := by
      intro p
      apply List.sum_eq_zero
      intro x hx
      rcases List.mem_map.mp hx with ⟨rr, hr, hval⟩
      rw [← hval]
      exact h rr (List.mem_dedup.mp (List.mem_filter.mp hr).1)
    show clean_total_row_value ddd _ + clean_total_row_value ddd _ = 0
    rw [hsub, hsub, add_zero]

/-- Every exposure value of `rowsAllZero` (units 0, strength 1, DDD 1) rounds
to zero. -/
theorem rowsAllZero_exposure :
    ∀ r ∈ rowsAllZero, (patient_exposure (some 1) r.units r.strength).getD 0 = 0 := by
  intro r hr
  simp only [rowsAllZero, List.mem_singleton] at hr
  subst hr
  norm_num [patient_exposure, sales_figure, roundHalfEven, Int.floor_zero]

/-- Witness for C10: a dataset whose single exposure value rounds to zero is
rendered with the same fallback as data with no results at all. -/
theorem zero_total_fallback_decision_witness :
    render_section5_3 dataZeroTotal = Section5_3Render.fallback_doc "Esomeprazole" ∧
    render_section5_3 ⟨"Esomeprazole", "EU & UK", "2024", "eu&uk", none⟩ =
      Section5_3Render.fallback_doc "Esomeprazole" := by
  constructor
  · exact (zero_total_fallback_decision dataZeroTotal rowsAllZero (some 1) "eu&uk" []).2.1 _
      rfl ((zero_total_fallback_decision dataZeroTotal rowsAllZero (some 1) "eu&uk" []).2.2
        rowsAllZero_exposure)
  · exact (zero_total_fallback_decision ⟨"Esomeprazole", "EU & UK", "2024", "eu&uk", none⟩
      rowsAllZero (some 1) "eu&uk" []).1 rfl

/-- C7:  For every located table whose first two rows are identical, the
locators' duplicate collapse returns the table with the second row dropped, so
the row count is exactly one less; tables whose first two rows differ are
returned unchanged. -/
theorem duplicated_header_row_collapse (r0 r1 : List String) (rest : List (List String)) :
    (r0 = r1 →
      collapse_duplicate_header (r0 :: r1 :: rest) = r0 :: rest ∧
        (collapse_duplicate_header (r0 :: r1 :: rest)).length + 1 =
          (r0 :: r1 :: rest).length) ∧
    (r0 ≠ r1 → collapse_duplicate_header (r0 :: r1 :: rest) = r0 :: r1 :: rest) := by
  constructor
  · intro h
    subst h
    simp [collapse_duplicate_header]
  · intro h
    simp [collapse_duplicate_header, h]

/-- Witness for C7 at a concrete table with (and without) a duplicated
header. -/
theorem duplicated_header_row_collapse_witness :
    collapse_duplicate_header [["h", "k"], ["h", "k"], ["d", "e"]] = [["h", "k"], ["d", "e"]] ∧
    collapse_duplicate_header [["h", "k"], ["x", "y"], ["d", "e"]] =
      [["h", "k"], ["x", "y"], ["d", "e"]] :=
  ⟨((duplicated_header_row_collapse ["h", "k"] ["h", "k"] [["d", "e"]]).1 rfl).1,
    (duplicated_header_row_collapse ["h", "k"] ["x", "y"] [["d", "e"]]).2 (by decide)⟩

/-- C8:  The text extractor fails with "file not found" iff the path does
not exist; fails with "unsupported format" iff the file exists and its
lower-cased extension is neither `.rtf` nor `.docx`; and otherwise returns a
single text blob — for `.rtf` the blob is the RTF conversion of the bytes
decoded by `read_rtf_file_safe` (utf-8, then cp1252, then latin1), for `.docx`
the joined paragraph text.  No other condition produces an error. -/
theorem extract_text_error_contract (rtf_to_text : String → String)
    (docx_paragraphs_text : List ℕ → String)
    (utf8_decode cp1252_decode : List ℕ → Option String)
    (fs : String → Option (List ℕ)) (file_path : String) :
    (extract_text_from_document rtf_to_text docx_paragraphs_text utf8_decode cp1252_decode
        fs file_path = Except.error (DocumentError.file_not_found file_path) ↔
      fs file_path = none) ∧
    (extract_text_from_document rtf_to_text docx_paragraphs_text utf8_decode cp1252_decode
        fs file_path = Except.error (DocumentError.unsupported_format file_path) ↔
      (∃ bytes, fs file_path = some bytes) ∧ plower (splitext_ext file_path) ≠ ".rtf" ∧
        plower (splitext_ext file_path) ≠ ".docx") ∧
    (∀ bytes, fs file_path = some bytes → plower (splitext_ext file_path) = ".rtf" →
      extract_text_from_document rtf_to_text docx_paragraphs_text utf8_decode cp1252_decode
          fs file_path =
        Except.ok (rtf_to_text (read_rtf_file_safe utf8_decode cp1252_decode bytes))) ∧
    (∀ bytes, fs file_path = some bytes → plower (splitext_ext file_path) = ".docx" →
      extract_text_from_document rtf_to_text docx_paragraphs_text utf8_decode cp1252_decode
          fs file_path = Except.ok (docx_paragraphs_text bytes)) := by
  refine ⟨?_, ?_, ?_, ?_⟩
  · cases hfs : fs file_path with
    | none => simp [extract_text_from_document, hfs]
    | some bytes =>
      simp only [extract_text_from_document, hfs]
      constructor
      · intro h
        split at h <;> first | exact absurd h (by simp) | (split at h <;> simp_all)
      · intro h
        cases h
  · cases hfs : fs file_path with
    | none =>
      simp only [extract_text_from_document, hfs]
      constructor
      · intro h
        cases h
      · rintro ⟨⟨bytes, hb⟩, -, -⟩
        cases hb
    | some bytes =>
      simp only [extract_text_from_document, hfs]
      constructor
      · intro h
        split at h
        · cases h
        · split at h
          · cases h
          · exact ⟨⟨bytes, rfl⟩, by assumption, by assumption⟩
      · rintro ⟨-, h1, h2⟩
        rw [if_neg h1, if_neg h2]
  · intro bytes hb hr
    simp [extract_text_from_document, hb, hr]
  · intro bytes hb hd
    have hr : plower (splitext_ext file_path) ≠ ".rtf" := by
      rw [hd]
      decide
    simp [extract_text_from_document, hb, hd, hr]

/-- Witness for C8: a concrete file system where a missing path, an existing
`.pdf` and an existing `.RTF` show all three outcomes. -/
theorem extract_text_error_contract_witness :
    extract_text_from_document id (fun _ => "") (fun _ => none) (fun _ => none) fsWitness
        "absent.rtf" = Except.error (DocumentError.file_not_found "absent.rtf") ∧
    extract_text_from_document id (fun _ => "") (fun _ => none) (fun _ => none) fsWitness
        "notes.pdf" = Except.error (DocumentError.unsupported_format "notes.pdf") ∧
    extract_text_from_document id (fun _ => "") (fun _ => none) (fun _ => none) fsWitness
        "report.RTF" =
      Except.ok (id (read_rtf_file_safe (fun _ => none) (fun _ => none) [104, 105])) := by
  refine ⟨?_, ?_, ?_⟩
  · exact (extract_text_error_contract id (fun _ => "") (fun _ => none) (fun _ => none)
      fsWitness "absent.rtf").1.mpr (by decide)
  · exact (extract_text_error_contract id (fun _ => "") (fun _ => none) (fun _ => none)
      fsWitness "notes.pdf").2.1.mpr ⟨⟨[1], by decide⟩, by decide, by decide⟩
  · exact (extract_text_error_contract id (fun _ => "") (fun _ => none) (fun _ => none)
      fsWitness "report.RTF").2.2.1 [104, 105] (by decide) (by decide)

theorem takeWhile_eq_self_of_all {α : Type} {p : α → Bool} {l : List α}
    (h : ∀ c ∈ l, p c = true) : l.takeWhile p = l := by
  induction l with
  | nil => rfl
  | cons x xs ih =>
    simp only [List.takeWhile_cons, h x (List.mem_cons_self x xs), if_true]
    rw [ih (fun c hc => h c (List.mem_cons_of_mem x hc))]

theorem dropWhile_eq_self_of_all_false {α : Type} {p : α → Bool} {l : List α}
    (h : ∀ c ∈ l, p c = false) : l.dropWhile p = l := by
  cases l with
  | nil => rfl
  | cons x xs => simp [List.dropWhile_cons, h x (List.mem_cons_self x xs)]

theorem trimChars_eq_self {l : List Char} (h : ∀ c ∈ l, c.isWhitespace = false) :
    trimChars l = l := by
  unfold trimChars
  rw [dropWhile_eq_self_of_all_false h,
    dropWhile_eq_self_of_all_false (fun c hc => h c (List.mem_reverse.mp hc)),
    List.reverse_reverse]

theorem not_ws_of_digit {c : Char} (h : c.isDigit = true) : c.isWhitespace = false := by
  by_contra hw
  rw [Bool.not_eq_false] at hw
  simp only [Char.isWhitespace, Bool.or_eq_true, decide_eq_true_eq] at hw
  rcases hw with ((h1 | h1) | h1) | h1 <;> subst h1 <;> exact absurd h (by decide)

theorem contains_colon (label rest : List Char) :
    (label ++ ':' :: rest).contains ':' = true :=
  List.elem_eq_true_of_mem (List.mem_append_right _ (List.mem_cons_self _ _))

/-- Counterexample to C5 as stated: on the cell `"a:5x6:7x8"` the code splits
at the **first** colon and extracts `5×6 = 30`, while splitting at the last
colon (the claim's reading) would give `7×8 = 56`. -/
theorem pack_size_last_colon_counterexample :
    pack_size_normalize "a:5x6:7x8" = 30 ∧ pack_size_spec_last_colon "a:5x6:7x8" = 56 := by
  constructor <;> decide

/-- C5 (amended): for every "Pack size" cell of the form `label: AxB`, the
text up to and including the **first** colon is split off and the leftmost
pair of integers separated by `x`/`X` in the remainder is extracted and
multiplied (no match defaults each factor to 1). -/
theorem pack_size_first_colon (label a b : String)
    (hlabel : (':' : Char) ∉ label.data)
    (ha : a.data ≠ [] ∧ ∀ c ∈ a.data, c.isDigit = true)
    (hb : b.data ≠ [] ∧ ∀ c ∈ b.data, c.isDigit = true) :
    pack_size_normalize (label ++ ":" ++ a ++ "x" ++ b) =
      digitsToNat a.data * digitsToNat b.data := by
  have hdata : (label ++ ":" ++ a ++ "x" ++ b).data =
      label.data ++ ':' :: (a.data ++ 'x' :: b.data) := by
    simp only [String.data_append]
    simp [List.append_assoc]
  have hlab : ∀ c ∈ label.data, (c != ':') = true := by
    intro c hc
    simp only [bne_iff_ne, ne_eq]
    exact fun e => hlabel (e ▸ hc)
  have hsplit : splitFirstColon (label ++ ":" ++ a ++ "x" ++ b) =
      String.mk (a.data ++ 'x' :: b.data) := by
    unfold splitFirstColon
    rw [hdata, if_pos (contains_colon _ _), List.dropWhile_append_of_pos hlab]
    simp [List.dropWhile_cons]
  have hnws : ∀ c ∈ a.data ++ 'x' :: b.data, c.isWhitespace = false := by
    intro c hc
    rcases List.mem_append.mp hc with h1 | h1
    · exact not_ws_of_digit (ha.2 c h1)
    · rcases List.mem_cons.mp h1 with h2 | h2
      · subst h2; decide
      · exact not_ws_of_digit (hb.2 c h2)
  have hstrip : pstrip (String.mk (a.data ++ 'x' :: b.data)) =
      String.mk (a.data ++ 'x' :: b.data) := by
    unfold pstrip
    rw [show (String.mk (a.data ++ 'x' :: b.data)).data = a.data ++ 'x' :: b.data from rfl,
      trimChars_eq_self hnws]
  have hxd : Char.isDigit 'x' = false := by decide
  have htake : (a.data ++ 'x' :: b.data).takeWhile Char.isDigit = a.data := by
    rw [List.takeWhile_append_of_pos ha.2]
    simp [List.takeWhile_cons, hxd]
  have hdrop : (a.data ++ 'x' :: b.data).dropWhile Char.isDigit = 'x' :: b.data := by
    rw [List.dropWhile_append_of_pos ha.2]
    simp [List.dropWhile_cons, hxd]
  have haE : a.data.isEmpty = false := by
    cases hA : a.data with
    | nil => exact absurd hA ha.1
    | cons y ys => rfl
  have hbws : b.data.dropWhile Char.isWhitespace = b.data :=
    dropWhile_eq_self_of_all_false (fun c hc => not_ws_of_digit (hb.2 c hc))
  have hbtake : b.data.takeWhile Char.isDigit = b.data := takeWhile_eq_self_of_all hb.2
  have hbE : b.data.isEmpty = false := by
    cases hB : b.data with
    | nil => exact absurd hB hb.1
    | cons y ys => rfl
  have hmatch : matchAxBHere (a.data ++ 'x' :: b.data) =
      some (digitsToNat a.data, digitsToNat b.data) := by
    unfold matchAxBHere
    rw [htake, hdrop, haE,
      dropWhile_eq_self_of_all_false
        (fun c hc => hnws c (List.mem_append_right _ hc))]
    simp only [Bool.false_eq_true, if_false]
    rw [if_pos (by decide : (('x' == 'x') || ('x' == 'X')) = true), hbws, hbtake, hbE]
    simp
  obtain ⟨c, cs, hc⟩ := List.exists_cons_of_ne_nil ha.1
  have hlist : a.data ++ 'x' :: b.data = c :: (cs ++ 'x' :: b.data) := by
    rw [hc]; rfl
  have hmatchc : matchAxBHere (c :: (cs ++ 'x' :: b.data)) =
      some (digitsToNat a.data, digitsToNat b.data) := by
    rw [← hlist]; exact hmatch
  unfold pack_size_normalize
  rw [hsplit, hstrip,
    show (String.mk (a.data ++ 'x' :: b.data)).data = a.data ++ 'x' :: b.data from rfl, hlist]
  simp only [searchAxB, hmatchc]

/-- Witness for the amended C5 at the concrete cell `"Bottle:12x3"`. -/
theorem pack_size_first_colon_witness :
    pack_size_normalize ("Bottle" ++ ":" ++ "12" ++ "x" ++ "3") =
      digitsToNat "12".data * digitsToNat "3".data ∧
    digitsToNat "12".data * digitsToNat "3".data = 36 :=
  ⟨pack_size_first_colon "Bottle" "12" "3" (by decide) ⟨by decide, by decide⟩
    ⟨by decide, by decide⟩, by decide⟩

theorem findMarkersAux_char (s e : String) :
    ∀ (ls : List String) (i : ℕ) (st : Option ℕ) (a b : ℕ),
      (∀ si, st = some si → si < i) →
      findMarkersAux s e ls i st = some (a, b) →
      a < b ∧ i ≤ b ∧ b - i < ls.length ∧
        containsCI (ls.getD (b - i) "") e = true ∧
        containsCI (ls.getD (b - i) "") s = false ∧
        (i ≤ a → containsCI (ls.getD (a - i) "") s = true) ∧
        (a < i → st = some a) ∧
        (∀ k, i ≤ k → a < k → k < b →
          containsCI (ls.getD (k - i) "") s = false ∧
            containsCI (ls.getD (k - i) "") e = false) := by
  intro ls
  induction ls with
  | nil =>
    intro i st a b _ h
    simp [findMarkersAux] at h
  | cons l rest ih =>
    intro i st a b hst h
    by_cases hs : containsCI l s = true
    · -- the line contains the start marker: the start index is overwritten
      rw [show findMarkersAux s e (l :: rest) i st =
          findMarkersAux s e rest (i + 1) (some i) from by
        simp [findMarkersAux, hs]] at h
      obtain ⟨hab, hib, hlen, hend, hns, hstart, hlt, hgap⟩ :=
        ih (i + 1) (some i) a b (fun si hsi => by injection hsi with hh; omega) h
      have hia : i ≤ a := by
        by_contra hlta
        push_neg at hlta
        have := hlt (by omega)
        injection this with hh
        omega
      have hbidx : (l :: rest).getD (b - i) "" = rest.getD (b - (i + 1)) "" := by
        have hx : b - i = (b - (i + 1)) + 1 := by omega
        rw [hx, List.getD_cons_succ]
      refine ⟨hab, by omega, ?_, ?_, ?_, ?_, ?_, ?_⟩
      · simp only [List.length_cons]
        omega
      · rw [hbidx]; exact hend
      · rw [hbidx]; exact hns
      · intro _
        by_cases hEq : a = i
        · subst hEq
          rw [Nat.sub_self, List.getD_cons_zero]
          exact hs
        · have hx : a - i = (a - (i + 1)) + 1 := by omega
          rw [hx, List.getD_cons_succ]
          exact hstart (by omega)
      · intro hlta
        exact absurd hlta (by omega)
      · intro k hik hak hkb
        have hx : k - i = (k - (i + 1)) + 1 := by omega
        rw [hx, List.getD_cons_succ]
        exact hgap k (by omega) hak hkb
    · by_cases he : containsCI l e = true
      · -- end-marker line (not a start-marker line)
        cases st with
        | some si =>
          rw [show findMarkersAux s e (l :: rest) i (some si) = some (si, i) from by
            simp [findMarkersAux, hs, he]] at h
          simp only [Option.some.injEq, Prod.mk.injEq] at h
          obtain ⟨ha1, hb1⟩ := h
          subst ha1
          subst hb1
          have hsia := hst si rfl
          rw [Bool.not_eq_true] at hs
          refine ⟨hsia, le_refl i, ?_, ?_, ?_, ?_, ?_, ?_⟩
          · simp [List.length_cons]
          · rw [Nat.sub_self, List.getD_cons_zero]; exact he
          · rw [Nat.sub_self, List.getD_cons_zero]; exact hs
          · intro hcon; omega
          · intro _; rfl
          · intro k hik _ hkb; omega
        | none =>
          rw [show findMarkersAux s e (l :: rest) i none =
              findMarkersAux s e rest (i + 1) none from by
            simp [findMarkersAux, hs, he]] at h
          obtain ⟨hab, hib, hlen, hend, hns, hstart, hlt, hgap⟩ :=
            ih (i + 1) none a b (fun si hsi => by cases hsi) h
          have hia : i + 1 ≤ a := by
            by_contra hlta
            push_neg at hlta
            exact Option.noConfusion (hlt (by omega))
          have hbidx : (l :: rest).getD (b - i) "" = rest.getD (b - (i + 1)) "" := by
            have hx : b - i = (b - (i + 1)) + 1 := by omega
            rw [hx, List.getD_cons_succ]
          refine ⟨hab, by omega, ?_, ?_, ?_, ?_, ?_, ?_⟩
          · simp only [List.length_cons]
            omega
          · rw [hbidx]; exact hend
          · rw [hbidx]; exact hns
          · intro _
            have hx : a - i = (a - (i + 1)) + 1 := by omega
            rw [hx, List.getD_cons_succ]
            exact hstart (by omega)
          · intro hlta
            exact absurd hlta (by omega)
          · intro k hik hak hkb
            have hx : k - i = (k - (i + 1)) + 1 := by omega
            rw [hx, List.getD_cons_succ]
            exact hgap k (by omega) hak hkb
      · -- a line with neither marker
        rw [show findMarkersAux s e (l :: rest) i st =
            findMarkersAux s e rest (i + 1) st from by
          simp [findMarkersAux, hs, he]] at h
        obtain ⟨hab, hib, hlen, hend, hns, hstart, hlt, hgap⟩ :=
          ih (i + 1) st a b (fun si hsi => Nat.lt_succ_of_lt (hst si hsi)) h
        have hANotI : a ≠ i := by
          intro hEq
          subst hEq
          exact absurd (hst a (hlt (by omega))) (lt_irrefl a)
        have hbidx : (l :: rest).getD (b - i) "" = rest.getD (b - (i + 1)) "" := by
          have hx : b - i = (b - (i + 1)) + 1 := by omega
          rw [hx, List.getD_cons_succ]
        rw [Bool.not_eq_true] at hs he
        refine ⟨hab, by omega, ?_, ?_, ?_, ?_, ?_, ?_⟩
        · simp only [List.length_cons]
          omega
        · rw [hbidx]; exact hend
        · rw [hbidx]; exact hns
        · intro hia
          have hx : a - i = (a - (i + 1)) + 1 := by omega
          rw [hx, List.getD_cons_succ]
          exact hstart (by omega)
        · intro hlta
          exact hlt (by omega)
        · intro k hik hak hkb
          by_cases hkI : k = i
          · subst hkI
            rw [Nat.sub_self, List.getD_cons_zero]
            exact ⟨hs, he⟩
          · have hx : k - i = (k - (i + 1)) + 1 := by omega
            rw [hx, List.getD_cons_succ]
            exact hgap k (by omega) hak hkb

/-- Counterexample to C6 as stated: with two start-marker lines before the
end marker, the code's region starts at the **second** (last) start-marker
line, not the first. -/
theorem marker_region_first_occurrence_counterexample :
    findMarkers "aa" "bb" ["aa 1", "aa 2", "bb"] = some (1, 2) ∧
    first_marker_pair_spec "aa" "bb" ["aa 1", "aa 2", "bb"] = some (0, 2) := by
  constructor <;> decide

/-- C6 (amended): when the marker search succeeds with bounds `(a, b)`, line
`b` is the first line after `a` that contains the end marker but not the
start marker, and `a` is the **last** start-marker line before `b` (all
matches case-insensitive substring); when no such pair is found, the
extractor returns the empty table with only the two scalar counts. -/
theorem marker_region_characterization (s e : String) (lines : List String) :
    (∀ a b, findMarkers s e lines = some (a, b) →
      a < b ∧ b < lines.length ∧
        containsCI (lines.getD a "") s = true ∧
        containsCI (lines.getD b "") e = true ∧
        containsCI (lines.getD b "") s = false ∧
        ∀ k, a < k → k < b →
          containsCI (lines.getD k "") s = false ∧
            containsCI (lines.getD k "") e = false) ∧
    (findMarkers s e lines = none →
      extract_table_with_multilevel_header s e lines =
        Except.ok (none, labeledCount lines, unlabeledCount lines)) := by
  constructor
  · intro a b h
    obtain ⟨hab, _, hlen, hend, hns, hstart, _, hgap⟩ :=
      findMarkersAux_char s e lines 0 none a b (fun si hsi => by cases hsi) h
    simp only [Nat.sub_zero] at hlen hend hns
    refine ⟨hab, hlen, ?_, hend, hns, ?_⟩
    · have := hstart (Nat.zero_le a)
      simpa using this
    · intro k hak hkb
      have := hgap k (Nat.zero_le k) hak hkb
      simpa using this
  · intro h
    unfold extract_table_with_multilevel_header
    rw [h]

/-- Witness for the amended C6 at a concrete marker pair. -/
theorem marker_region_characterization_witness :
    (1 : ℕ) < 3 ∧ 3 < 4 ∧
    containsCI (["x", "aa", "y", "bb"].getD 1 "") "aa" = true ∧
    containsCI (["x", "aa", "y", "bb"].getD 3 "") "bb" = true ∧
    containsCI (["x", "aa", "y", "bb"].getD 3 "") "aa" = false ∧
    (containsCI (["x", "aa", "y", "bb"].getD 2 "") "aa" = false ∧
      containsCI (["x", "aa", "y", "bb"].getD 2 "") "bb" = false) := by
  have h := (marker_region_characterization "aa" "bb" ["x", "aa", "y", "bb"]).1 1 3 (by decide)
  exact ⟨h.1, h.2.1, h.2.2.1, h.2.2.2.1, h.2.2.2.2.1, h.2.2.2.2.2 2 (by decide) (by decide)⟩

/-- C4: contrary to the never-fails contract, the summarizer raises on a
parseable-looking text whose header row has fewer than 3 pipe-separated
fields (Python `header_row[2]` raises `IndexError` at section6_3.py line 78
before any fallback can apply). -/
theorem soc_summary_raises_on_malformed_header :
    rtf_soc_summary linesMalformedHeader = Except.error "list index out of range" := by
  decide

theorem insertByTotalDesc_length (r : SOCRow) (l : List SOCRow) :
    (insertByTotalDesc r l).length = l.length + 1 := by
  induction l with
  | nil => rfl
  | cons x xs ih =>
    simp only [insertByTotalDesc]
    split
    · simp
    · simp [ih]

theorem sortByTotalDesc_length (l : List SOCRow) :
    (sortByTotalDesc l).length = l.length := by
  induction l with
  | nil => rfl
  | cons x xs ih => simp [sortByTotalDesc, insertByTotalDesc_length, ih]

/-- Counterexample to C9 as stated: a parsed table with a single data row has
0 (< 3) SubTotal rows, yet the summarizer raises (`iloc[-1]` on the empty
remainder after the first-row drop) instead of returning the short fallback
sentence. -/
theorem soc_fallback_counterexample :
    extract_table_with_multilevel_header socStartMarker socEndMarker linesSingleDataRow =
      Except.ok (some [⟨"A", "B", "1", "2", "3"⟩], 0, 0) ∧
    rtf_soc_summary linesSingleDataRow =
      Except.error "single positional indexer is out-of-bounds" := by
  constructor <;> decide

/-- C9 (amended): for every parsed SOC table that still has a row after the
first-row drop, whose last row has integer "No"/"Yes" cells and a nonzero
grand total, and that contains fewer than 3 SubTotal rows, the summarizer
returns exactly the short serious/non-serious insufficient-data sentence,
never a partially ranked narrative. -/
theorem soc_fallback_insufficient_subtotals (lines : List String) (rows : List SOCRow)
    (lastRow : SOCRow) (ns sr : ℤ) (label unlabel : ℕ)
    (hext : extract_table_with_multilevel_header socStartMarker socEndMarker lines =
      Except.ok (some rows, label, unlabel))
    (hlast : (rows.drop 1).getLast? = some lastRow)
    (hno : pyInt lastRow.no = some ns)
    (hyes : pyInt lastRow.yes = some sr)
    (htot : totalInt lastRow.total ≠ 0)
    (hcount : ((rows.drop 1).filter (fun r => r.sub == "SubTotal")).length < 3) :
    rtf_soc_summary lines = Except.ok (socInsufficient sr ns) := by
  have hc3 : (socTop3 (rows.drop 1)).length < 3 := by
    unfold socTop3
    rw [List.length_take, sortByTotalDesc_length]
    omega
  unfold rtf_soc_summary
  rw [hext]
  dsimp only
  rw [hlast]
  dsimp only
  rw [hno, hyes]
  dsimp only
  rw [if_neg htot, if_pos hc3]

/-- Witness for the amended C9 on a concrete text with one SubTotal group and
a nonzero grand total. -/
theorem soc_fallback_insufficient_subtotals_witness :
    rtf_soc_summary linesFewSubTotals = Except.ok (socInsufficient 2 1) := by
  have h3 : totalInt "3" = 3 := by
    unfold totalInt
    rw [show parseDecQ "3" = some ((3 : ℤ) : ℚ) from rfl]
    simp only [Option.getD_some]
    unfold truncQ
    rw [if_pos (by norm_num : (0 : ℚ) ≤ ((3 : ℤ) : ℚ))]
    exact Int.floor_intCast 3
  exact soc_fallback_insufficient_subtotals linesFewSubTotals
    [⟨"Artifact", "Artifact", "0", "0", "0"⟩, ⟨"SOC A", "SubTotal", "1", "2", "3"⟩,
      ⟨"All", "Grand", "1", "2", "3"⟩]
    ⟨"All", "Grand", "1", "2", "3"⟩ 1 2 4 5 (by decide) (by decide) (by decide) (by decide)
    (by rw [show (⟨"All", "Grand", "1", "2", "3"⟩ : SOCRow).total = "3" from rfl, h3]; decide)
    (by decide)

end PSURSpec
